import Mathlib

/-!
Shallow embedding of `src/secure-comm.js` (class `SecureCommunication`,
the message receiver of Web App B) for verification of the protocol
claims.

Modelling conventions:
* Wall-clock time is an integer number of milliseconds (`Int`); the
  source's `new Date()` values and the constants `60000` / `120000`
  from `_isMessageValid` are taken verbatim.
* JS falsy checks on strings (`!message.type`, `!tokens.accessToken`)
  are modelled by comparison with the empty string; a possibly-absent
  object field is an `Option`.
* Window references (`window.opener`, `event.source`, `this.sourceWindow`)
  are opaque values of type `WindowRef`.
* Side effects are made explicit: each operation returns the updated
  session together with the list of `postMessage` dispatches, the calls
  made to the token store's `storeTokens`, the calls to the registered
  `tokensReceivedCallback`, and the `_updateStatus` UI updates.
  `console` logging and `_updateTokenInfo` (pure DOM rendering) are not
  modelled; the underlying `postMessage` primitive is modelled as
  non-throwing, so the `catch` fallbacks in the source are dead in the
  model.
-/

/-- Opaque reference to a browser window (`window.opener`, `event.source`). -/
inductive WindowRef where
  | opener
  | win (id : Nat)
deriving DecidableEq, Repr

/-- The `kind` argument of `_updateStatus` (`pending` / `success` / `error`). -/
inductive StatusKind where
  | pending
  | success
  | error
deriving DecidableEq, Repr

/-- One `_updateStatus(message, kind)` call. -/
structure StatusUpdate where
  message : String
  kind : StatusKind
deriving DecidableEq, Repr

/-- The token payload carried in `message.data.tokens`; the source's falsy
checks `!tokens.accessToken` / `!tokens.refreshToken` are modelled by the
empty string. -/
structure Tokens where
  accessToken : String
  refreshToken : String
deriving DecidableEq, Repr

/-- The `data` field of a `TOKEN_TRANSFER` envelope, destructured by the
source as `const (tokens, userId, issuedAt) = message.data or empty`. -/
structure TransferData where
  tokens : Option Tokens
  userId : Option String
  issuedAt : Option String
deriving DecidableEq, Repr

/-- Inbound `message.metadata`: timestamps already parsed to integer
milliseconds (absent field = `none`). -/
structure InMetadata where
  timestamp : Option Int
  expiresAt : Option Int
  sender : Option String
deriving DecidableEq, Repr

/-- An inbound wire envelope (`event.data`). `type = ""` models a falsy
`message.type`. -/
structure Envelope where
  type : String
  requestId : Option String
  data : Option TransferData
  metadata : Option InMetadata
deriving DecidableEq, Repr

/-- The mutable fields of a `SecureCommunication` instance, plus the
immutable `config.senderOrigin` / `config.debug`. `hasTokenStorage` and
`hasCallback` record whether `this.tokenStorage` resp.
`this.tokensReceivedCallback` are set. -/
structure Session where
  senderOrigin : String
  debug : Bool
  sourceWindow : Option WindowRef
  handshakeComplete : Bool
  connectionStatus : String
  hasTokenStorage : Bool
  hasCallback : Bool
deriving DecidableEq, Repr

/-- The state set up by the constructor (`sourceWindow = null`,
`handshakeComplete = false`, `connectionStatus = 'disconnected'`). -/
def initialSession (origin : String) (debug : Bool)
    (hasStorage hasCb : Bool) : Session :=
  { senderOrigin := origin
    debug := debug
    sourceWindow := none
    handshakeComplete := false
    connectionStatus := "disconnected"
    hasTokenStorage := hasStorage
    hasCallback := hasCb }

/-- The data payload of an outbound message: either the handshake
request's `(timestamp, receiver)` or the acknowledgment's
`(success, timestamp)`. -/
inductive OutData where
  | handshake (timestamp : Int) (receiver : String)
  | ack (success : Bool) (timestamp : Int)
deriving DecidableEq, Repr

/-- The security metadata `_sendMessage` attaches:
`(timestamp: now, sender: own origin)`. -/
structure OutMetadata where
  timestamp : Int
  sender : String
deriving DecidableEq, Repr

/-- An outbound message as handed to `postMessage`. -/
structure OutMessage where
  type : String
  requestId : Option String
  data : OutData
  metadata : Option OutMetadata
deriving DecidableEq, Repr

/-- One `target.postMessage(message, targetOrigin)` dispatch. -/
structure SentMessage where
  target : WindowRef
  targetOrigin : String
  message : OutMessage
deriving DecidableEq, Repr

/-- `_isMessageValid(message)` (lines 251-292): requires
`metadata.timestamp` and `metadata.expiresAt`, rejects when
`now > expiresAt`, when `timestamp > now + 60000` (1 minute clock skew)
or when `now - timestamp > 120000` (2 minutes max age). -/
def isMessageValid (m : Envelope) (now : Int) : Bool :=
  match m.metadata with
  | none => false
  | some md =>
    match md.timestamp, md.expiresAt with
    | some ts, some exp =>
      if exp < now then false
      else if now + 60000 < ts then false
      else if 120000 < now - ts then false
      else true
    | some _, none => false
    | none, some _ => false
    | none, none => false

/-- The guard prefix of `handleMessage` (lines 122-140): origin check,
falsy-type check, and the validity check from which `HANDSHAKE_RESPONSE`
is exempted. A message reaches the `switch` dispatch iff this is true. -/
def messageAccepted (s : Session) (now : Int) (eventOrigin : String)
    (m : Envelope) : Bool :=
  if eventOrigin ≠ s.senderOrigin then false
  else if m.type = "" then false
  else if m.type ≠ "HANDSHAKE_RESPONSE" ∧ isMessageValid m now = false then false
  else true

/-- The result of one `handleMessage` invocation: the new session state
and the lists of effects performed (`_updateStatus` calls,
`tokenStorage.storeTokens` calls, `postMessage` dispatches,
`tokensReceivedCallback` invocations). -/
structure HandleResult where
  session : Session
  statusUpdates : List StatusUpdate
  storeCalls : List (Tokens × Option String × Option String × String)
  sent : List SentMessage
  callbackCalls : List (Tokens × Option String × Option String)
deriving DecidableEq, Repr

/-- The no-effect result of an early `return`. -/
def HandleResult.noop (s : Session) : HandleResult :=
  { session := s
    statusUpdates := []
    storeCalls := []
    sent := []
    callbackCalls := [] }

/-- The `secureMessage` built by `_sendMessage` (lines 214-220): the
given message with `metadata = (timestamp: now, sender: own origin)`
attached. -/
def secureWrap (now : Int) (ownOrigin : String) (msg : OutMessage) :
    OutMessage :=
  { msg with metadata := some { timestamp := now, sender := ownOrigin } }

/-- `_sendMessage(message)` (lines 205-245): fails when neither
`sourceWindow` nor `opener` is available; attaches the security
metadata; routes `HANDSHAKE_REQUEST` to the opener and everything else
to the stored `sourceWindow`, always with `config.senderOrigin` as the
target origin. Returns the dispatch (if any) and the boolean result. -/
def sendMessage (s : Session) (openerPresent : Bool) (now : Int)
    (ownOrigin : String) (msg : OutMessage) : Option SentMessage × Bool :=
  if s.sourceWindow = none ∧ openerPresent = false then (none, false)
  else if msg.type = "HANDSHAKE_REQUEST" ∧ openerPresent = true then
    (some { target := WindowRef.opener
            targetOrigin := s.senderOrigin
            message := secureWrap now ownOrigin msg }, true)
  else
    match s.sourceWindow with
    | some w =>
      (some { target := w
              targetOrigin := s.senderOrigin
              message := secureWrap now ownOrigin msg }, true)
    | none => (none, false)

/-- The `switch (message.type)` body of `handleMessage` (lines 146-198),
reached only for accepted messages. -/
def dispatchMessage (s : Session) (now : Int) (ownOrigin : String)
    (openerPresent : Bool) (eventSource : WindowRef) (m : Envelope) :
    HandleResult :=
  if m.type = "HANDSHAKE_RESPONSE" then
    { session :=
        { s with
          handshakeComplete := true
          connectionStatus := "connected"
          sourceWindow := some eventSource }
      statusUpdates :=
        [{ message := "Connected to Web App A and waiting for tokens..."
           kind := StatusKind.pending }]
      storeCalls := []
      sent := []
      callbackCalls := [] }
  else if m.type = "TOKEN_TRANSFER" then
    if s.handshakeComplete = false then
      { HandleResult.noop s with
        statusUpdates :=
          [{ message := "Security error: Received tokens before handshake completion"
             kind := StatusKind.error }] }
    else
      match m.data.getD { tokens := none, userId := none, issuedAt := none } with
      | ⟨none, _, _⟩ =>
        { HandleResult.noop s with
          statusUpdates :=
            [{ message := "Error: Received invalid token data"
               kind := StatusKind.error }] }
      | ⟨some t, uid, iat⟩ =>
        if t.accessToken = "" ∨ t.refreshToken = "" then
          { HandleResult.noop s with
            statusUpdates :=
              [{ message := "Error: Received invalid token data"
                 kind := StatusKind.error }] }
        else
          { session := s
            statusUpdates :=
              [{ message := "Tokens received successfully!"
                 kind := StatusKind.success }]
            storeCalls :=
              if s.hasTokenStorage then [(t, uid, iat, s.senderOrigin)]
              else []
            sent := (sendMessage s openerPresent now ownOrigin
              { type := "TOKEN_RECEIVED"
                requestId := m.requestId
                data := OutData.ack true now
                metadata := none }).1.toList
            callbackCalls := if s.hasCallback then [(t, uid, iat)] else [] }
  else HandleResult.noop s

/-- `handleMessage(event)` (lines 121-199): the origin / type / validity
guards followed by the type dispatch. `eventData = none` models a falsy
`event.data`. -/
def handleMessage (s : Session) (now : Int) (ownOrigin : String)
    (openerPresent : Bool) (eventOrigin : String) (eventSource : WindowRef)
    (eventData : Option Envelope) : HandleResult :=
  if eventOrigin ≠ s.senderOrigin then HandleResult.noop s
  else
    match eventData with
    | none => HandleResult.noop s
    | some m =>
      if messageAccepted s now eventOrigin m then
        dispatchMessage s now ownOrigin openerPresent eventSource m
      else HandleResult.noop s

/-- The result of `initiateHandshake()`. -/
structure InitResult where
  session : Session
  ok : Bool
  statusUpdates : List StatusUpdate
  sent : List SentMessage
  timeoutArmed : Bool
deriving DecidableEq, Repr

/-- `initiateHandshake()` (lines 62-99): fails when `window.opener` is
absent; otherwise builds the `HANDSHAKE_REQUEST` envelope (whose `data`
carries the current timestamp and the receiver's own origin, and which
carries no `metadata` object) and posts it directly via
`window.opener.postMessage(..., config.senderOrigin)`, then arms the
30-second timeout. No session field is modified. -/
def initiateHandshake (s : Session) (openerPresent : Bool) (now : Int)
    (ownOrigin : String) (requestId : String) : InitResult :=
  if openerPresent = false then
    { session := s
      ok := false
      statusUpdates :=
        [{ message := "Error: Cannot establish connection to parent window"
           kind := StatusKind.error }]
      sent := []
      timeoutArmed := false }
  else
    { session := s
      ok := true
      statusUpdates :=
        [{ message := "Handshake initiated with Web App A"
           kind := StatusKind.pending }]
      sent :=
        [{ target := WindowRef.opener
           targetOrigin := s.senderOrigin
           message :=
             { type := "HANDSHAKE_REQUEST"
               requestId := some requestId
               data := OutData.handshake now ownOrigin
               metadata := none } }]
      timeoutArmed := true }

/-- The 30-second timeout callback armed by `initiateHandshake`
(lines 85-89): when it fires it checks `handshakeComplete` and, if the
handshake is still incomplete, reports the timeout via `_updateStatus`;
it modifies no session field in either case. -/
def fireHandshakeTimeout (s : Session) : Session × List StatusUpdate :=
  if s.handshakeComplete then (s, [])
  else
    (s, [{ message := "Handshake timed out. Please try again."
           kind := StatusKind.error }])

/-- `disconnect()` (lines 104-115): clears `sourceWindow`, resets
`handshakeComplete` and `connectionStatus`. -/
def disconnectSession (s : Session) : Session :=
  { s with
    sourceWindow := none
    handshakeComplete := false
    connectionStatus := "disconnected" }

/-- The events that can mutate a session over its lifetime: an inbound
browser message, `initiateHandshake`, the handshake timeout firing,
`disconnect`, and the `setTokenStorage` / `onTokensReceived` setters. -/
inductive Event where
  | message (now : Int) (ownOrigin : String) (openerPresent : Bool)
      (eventOrigin : String) (eventSource : WindowRef)
      (eventData : Option Envelope)
  | initiate (openerPresent : Bool) (now : Int) (ownOrigin : String)
      (requestId : String)
  | timeout
  | disconnect
  | setStorage (b : Bool)
  | setCallback (b : Bool)

/-- The session-state transition of each event. -/
def stepSession (s : Session) : Event → Session
  | Event.message now own op eo es ed =>
    (handleMessage s now own op eo es ed).session
  | Event.initiate op now own rid => (initiateHandshake s op now own rid).session
  | Event.timeout => (fireHandshakeTimeout s).1
  | Event.disconnect => disconnectSession s
  | Event.setStorage b => { s with hasTokenStorage := b }
  | Event.setCallback b => { s with hasCallback := b }

/-- Run a list of events from a session state. -/
def runEvents (s : Session) (evs : List Event) : Session :=
  evs.foldl stepSession s

/-- A session state reachable from some freshly constructed instance. -/
def Reachable (s : Session) : Prop :=
  ∃ origin debug hs hc evs,
    s = runEvents (initialSession origin debug hs hc) evs

/-- Structural invariant of the session: the `handshakeComplete` flag and
the `connectionStatus` string agree, and a completed handshake has
recorded a source window. -/
def SessionInv (s : Session) : Prop :=
  (s.handshakeComplete = true ↔ s.connectionStatus = "connected") ∧
  (s.handshakeComplete = true → s.sourceWindow.isSome = true)

/-- The payload condition the token relay rejects (lines 163-168): the
destructured `data` lacks `tokens`, or lacks `tokens.accessToken` or
`tokens.refreshToken` (falsy = empty string). -/
def invalidTokenPayload (m : Envelope) : Bool :=
  match m.data.getD { tokens := none, userId := none, issuedAt := none } with
  | ⟨none, _, _⟩ => true
  | ⟨some t, _, _⟩ =>
    if t.accessToken = "" ∨ t.refreshToken = "" then true else false

/-- A freshly constructed session with the default configured origin,
used as a concrete evaluation input. -/
def wInit : Session := initialSession "http://localhost:3002" false true true

/-- A concrete Connected session whose recorded peer is window 0. -/
def wConnected : Session :=
  { senderOrigin := "http://localhost:3002"
    debug := false
    sourceWindow := some (WindowRef.win 0)
    handshakeComplete := true
    connectionStatus := "connected"
    hasTokenStorage := true
    hasCallback := true }

/-- The session state after `initiate()` has run on a fresh instance
(the source modifies no session field there). -/
def wAfterInitiate : Session :=
  (initiateHandshake wInit true 0 "http://localhost:3003" "rid1").session

/-- Concrete fresh metadata (message sent at time 0, expiring at 10). -/
def wMeta : InMetadata :=
  { timestamp := some 0, expiresAt := some 10, sender := none }

/-- A concrete `TOKEN_TRANSFER` envelope carrying no data payload. -/
def wTransferNoData : Envelope :=
  { type := "TOKEN_TRANSFER"
    requestId := some "r"
    data := none
    metadata := some wMeta }

/-- A concrete `TOKEN_TRANSFER` envelope with a full token payload. -/
def wTransferFull : Envelope :=
  { type := "TOKEN_TRANSFER"
    requestId := some "r"
    data := some { tokens := some { accessToken := "a", refreshToken := "b" }
                   userId := some "u1"
                   issuedAt := some "t0" }
    metadata := some wMeta }

/-- A concrete `HANDSHAKE_RESPONSE` envelope. -/
def wResponse : Envelope :=
  { type := "HANDSHAKE_RESPONSE"
    requestId := some "q"
    data := none
    metadata := none }

lemma sessionInv_initial (origin : String) (debug hs hc : Bool) :
    SessionInv (initialSession origin debug hs hc) := by
  constructor
  · simp [initialSession]
  · simp [initialSession]

/-- `handleMessage` either leaves the session untouched or performs the
`HANDSHAKE_RESPONSE` transition. -/
lemma handleMessage_session_cases (s : Session) (now : Int)
    (own : String) (op : Bool) (eo : String) (es : WindowRef)
    (ed : Option Envelope) :
    (handleMessage s now own op eo es ed).session = s ∨
    (handleMessage s now own op eo es ed).session =
      { s with
        handshakeComplete := true
        connectionStatus := "connected"
        sourceWindow := some es } := by
  unfold handleMessage dispatchMessage
  repeat first
  | (left; rfl)
  | (right; rfl)
  | split
  | (simp only [HandleResult.noop])

lemma sessionInv_step (s : Session) (e : Event) (h : SessionInv s) :
    SessionInv (stepSession s e) := by
  obtain ⟨h1, h2⟩ := h
  cases e with
  | message now own op eo es ed =>
    rcases handleMessage_session_cases s now own op eo es ed with hc | hc
    · simp only [stepSession, hc]; exact ⟨h1, h2⟩
    · simp only [stepSession, hc]
      constructor
      · simp
      · simp [Option.isSome]
  | initiate op now own rid =>
    simp only [stepSession, initiateHandshake]
    split
    · exact ⟨h1, h2⟩
    · exact ⟨h1, h2⟩
  | timeout =>
    simp only [stepSession, fireHandshakeTimeout]
    split
    · exact ⟨h1, h2⟩
    · exact ⟨h1, h2⟩
  | disconnect =>
    simp only [stepSession, disconnectSession]
    constructor
    · simp
    · simp
  | setStorage b =>
    simp only [stepSession]
    exact ⟨h1, h2⟩
  | setCallback b =>
    simp only [stepSession]
    exact ⟨h1, h2⟩

lemma sessionInv_runEvents (evs : List Event) (s : Session)
    (h : SessionInv s) : SessionInv (runEvents s evs) := by
  induction evs generalizing s with
  | nil => exact h
  | cons e rest ih => exact ih (stepSession s e) (sessionInv_step s e h)

/-- Every reachable session state satisfies the structural invariant. -/
lemma reachable_sessionInv (s : Session) (h : Reachable s) : SessionInv s := by
  obtain ⟨origin, debug, hs, hc, evs, rfl⟩ := h
  exact sessionInv_runEvents evs _ (sessionInv_initial origin debug hs hc)

/-- Unfolding equation of `handleMessage` on a present `event.data`. -/
lemma handleMessage_some (s : Session) (now : Int) (own : String)
    (op : Bool) (eo : String) (es : WindowRef) (m : Envelope) :
    handleMessage s now own op eo es (some m) =
      if eo ≠ s.senderOrigin then HandleResult.noop s
      else if messageAccepted s now eo m then
        dispatchMessage s now own op es m
      else HandleResult.noop s := by
  unfold handleMessage
  by_cases h : eo ≠ s.senderOrigin
  · rw [if_pos h]
  · rw [if_neg h]

lemma handleMessage_transfer_not_complete (s : Session) (now : Int)
    (own : String) (op : Bool) (eo : String) (es : WindowRef) (m : Envelope)
    (hm : m.type = "TOKEN_TRANSFER") (hc : s.handshakeComplete = false) :
    (handleMessage s now own op eo es (some m)).storeCalls = [] ∧
    (handleMessage s now own op eo es (some m)).session = s ∧
    (handleMessage s now own op eo es (some m)).sent = [] ∧
    (handleMessage s now own op eo es (some m)).callbackCalls = [] := by
  rw [handleMessage_some]
  by_cases h1 : eo ≠ s.senderOrigin
  · rw [if_pos h1]
    simp [HandleResult.noop]
  · rw [if_neg h1]
    by_cases h2 : messageAccepted s now eo m = true
    · rw [if_pos h2]
      unfold dispatchMessage
      rw [if_neg (by rw [hm]; decide), if_pos hm, if_pos hc]
      simp [HandleResult.noop]
    · rw [if_neg h2]
      simp [HandleResult.noop]

lemma handleMessage_storeCalls_complete (s : Session) (now : Int)
    (own : String) (op : Bool) (eo : String) (es : WindowRef)
    (ed : Option Envelope)
    (h : (handleMessage s now own op eo es ed).storeCalls ≠ []) :
    s.handshakeComplete = true := by
  by_contra hc
  rw [Bool.not_eq_true] at hc
  apply h
  cases ed with
  | none =>
    unfold handleMessage
    split
    · rfl
    · rfl
  | some m =>
    rw [handleMessage_some]
    by_cases h1 : eo ≠ s.senderOrigin
    · rw [if_pos h1]
      rfl
    · rw [if_neg h1]
      by_cases h2 : messageAccepted s now eo m = true
      · rw [if_pos h2]
        unfold dispatchMessage
        by_cases h3 : m.type = "HANDSHAKE_RESPONSE"
        · rw [if_pos h3]
        · rw [if_neg h3]
          by_cases h4 : m.type = "TOKEN_TRANSFER"
          · rw [if_pos h4, if_pos hc]
            rfl
          · rw [if_neg h4]
            rfl
      · rw [if_neg h2]
        rfl

/-- Claim C1: an inbound message whose event origin differs from the
configured sender origin causes no state change and no reply of any
kind, whatever its type or content. -/
theorem c1_origin_mismatch_silent (s : Session) (now : Int) (own : String)
    (op : Bool) (eo : String) (es : WindowRef) (ed : Option Envelope)
    (h : eo ≠ s.senderOrigin) :
    handleMessage s now own op eo es ed = HandleResult.noop s := by
  unfold handleMessage
  rw [if_pos h]

theorem c1_witness :
    ("https://evil.example" ≠ wInit.senderOrigin) ∧
    handleMessage wInit 0 "http://localhost:3003" true "https://evil.example"
      (WindowRef.win 0) (some wTransferFull) = HandleResult.noop wInit :=
  ⟨by decide, c1_origin_mismatch_silent _ _ _ _ _ _ _ (by decide)⟩

/-- Claim C2: in every reachable session state, a `TOKEN_TRANSFER` leads
to a token-store call only when the state is Connected
(`handshakeComplete` with `connectionStatus = "connected"`); when the
handshake is not complete (Disconnected or HandshakeInitiated) the
transfer is rejected: no store call, no state change, no dispatch, no
observer call. -/
theorem c2_token_transfer_only_connected (s : Session) (hr : Reachable s)
    (now : Int) (own : String) (op : Bool) (eo : String) (es : WindowRef)
    (m : Envelope) (hm : m.type = "TOKEN_TRANSFER") :
    ((handleMessage s now own op eo es (some m)).storeCalls ≠ [] →
      s.handshakeComplete = true ∧ s.connectionStatus = "connected") ∧
    (s.handshakeComplete = false →
      (handleMessage s now own op eo es (some m)).storeCalls = [] ∧
      (handleMessage s now own op eo es (some m)).session = s ∧
      (handleMessage s now own op eo es (some m)).sent = [] ∧
      (handleMessage s now own op eo es (some m)).callbackCalls = []) := by
  constructor
  · intro hne
    have hcomp := handleMessage_storeCalls_complete s now own op eo es (some m) hne
    exact ⟨hcomp, ((reachable_sessionInv s hr).1).mp hcomp⟩
  · intro hc
    exact handleMessage_transfer_not_complete s now own op eo es m hm hc

theorem c2_witness :
    ((handleMessage wInit 0 "http://localhost:3003" true "http://localhost:3002"
        (WindowRef.win 0) (some wTransferNoData)).storeCalls ≠ [] →
      wInit.handshakeComplete = true ∧ wInit.connectionStatus = "connected") ∧
    (wInit.handshakeComplete = false →
      (handleMessage wInit 0 "http://localhost:3003" true "http://localhost:3002"
        (WindowRef.win 0) (some wTransferNoData)).storeCalls = [] ∧
      (handleMessage wInit 0 "http://localhost:3003" true "http://localhost:3002"
        (WindowRef.win 0) (some wTransferNoData)).session = wInit ∧
      (handleMessage wInit 0 "http://localhost:3003" true "http://localhost:3002"
        (WindowRef.win 0) (some wTransferNoData)).sent = [] ∧
      (handleMessage wInit 0 "http://localhost:3003" true "http://localhost:3002"
        (WindowRef.win 0) (some wTransferNoData)).callbackCalls = []) :=
  c2_token_transfer_only_connected wInit
    ⟨"http://localhost:3002", false, true, true, [], rfl⟩ 0 "http://localhost:3003"
    true "http://localhost:3002" (WindowRef.win 0) wTransferNoData rfl

/-- Claim C3 counterexample: with the session already Connected to
window 0, a duplicate `HANDSHAKE_RESPONSE` arriving from window 1 is
not ignored — it changes the session (re-recording the event source as
the peer window) and re-triggers the status update. -/
theorem c3_counterexample :
    (handleMessage wConnected 0 "http://localhost:3003" true
      "http://localhost:3002" (WindowRef.win 1) (some wResponse)).session ≠
      wConnected ∧
    (handleMessage wConnected 0 "http://localhost:3003" true
      "http://localhost:3002" (WindowRef.win 1)
      (some wResponse)).session.sourceWindow = some (WindowRef.win 1) ∧
    (handleMessage wConnected 0 "http://localhost:3003" true
      "http://localhost:3002" (WindowRef.win 1)
      (some wResponse)).statusUpdates ≠ [] := by decide

/-- Claim C3 (amended): the handler applies no state guard to
`HANDSHAKE_RESPONSE`. In every state, a response from the configured
origin sets `handshakeComplete`, sets the status to connected, records
the event source as the peer window, and emits one status update; it
sends no reply and touches neither the token store nor the observer.
A response in `HandshakeInitiated` therefore transitions to Connected
as claimed, and a duplicate in Connected leaves `handshakeComplete` and
`connectionStatus` unchanged, but re-records the (possibly different)
event source and re-emits the status update rather than being ignored. -/
theorem c3_handshake_response_unguarded (s : Session) (now : Int)
    (own : String) (op : Bool) (es : WindowRef) (m : Envelope)
    (hm : m.type = "HANDSHAKE_RESPONSE") :
    handleMessage s now own op s.senderOrigin es (some m) =
      { session :=
          { s with
            handshakeComplete := true
            connectionStatus := "connected"
            sourceWindow := some es }
        statusUpdates :=
          [{ message := "Connected to Web App A and waiting for tokens..."
             kind := StatusKind.pending }]
        storeCalls := []
        sent := []
        callbackCalls := [] } := by
  rw [handleMessage_some, if_neg (by simp)]
  have hacc : messageAccepted s now s.senderOrigin m = true := by
    unfold messageAccepted
    rw [if_neg (by simp), if_neg (by rw [hm]; decide),
        if_neg (fun hx => hx.1 hm)]
  rw [if_pos hacc]
  unfold dispatchMessage
  rw [if_pos hm]

theorem c3_witness :
    (wResponse.type = "HANDSHAKE_RESPONSE") ∧
    handleMessage wInit 0 "http://localhost:3003" true wInit.senderOrigin
      (WindowRef.win 0) (some wResponse) =
      { session :=
          { wInit with
            handshakeComplete := true
            connectionStatus := "connected"
            sourceWindow := some (WindowRef.win 0) }
        statusUpdates :=
          [{ message := "Connected to Web App A and waiting for tokens..."
             kind := StatusKind.pending }]
        storeCalls := []
        sent := []
        callbackCalls := [] } :=
  ⟨rfl, c3_handshake_response_unguarded wInit 0 "http://localhost:3003" true
    (WindowRef.win 0) wResponse rfl⟩

/-- The validity predicate holds exactly when the metadata timestamps are
present, the message has not expired, its timestamp is at most 60000 ms
in the future and its age is at most 120000 ms. -/
lemma isMessageValid_iff (m : Envelope) (now : Int) :
    isMessageValid m now = true ↔
    ∃ md ts exp, m.metadata = some md ∧ md.timestamp = some ts ∧
      md.expiresAt = some exp ∧ now ≤ exp ∧ ts ≤ now + 60000 ∧
      now - ts ≤ 120000 := by
  unfold isMessageValid
  rcases hmd : m.metadata with _ | md
  · simp
  · rcases hts : md.timestamp with _ | ts <;>
      rcases hexp : md.expiresAt with _ | exp
    · simp [hts, hexp]
    · simp [hts, hexp]
    · simp [hts, hexp]
    · simp only [hts, hexp, Option.some.injEq]
      constructor
      · intro h
        split_ifs at h with h1 h2 h3
        exact ⟨md, ts, exp, rfl, hts, hexp, by omega, by omega, by omega⟩
      · rintro ⟨md', ts', exp', rfl, hts', hexp', he, hsk, ha⟩
        rw [hts] at hts'
        cases hts'
        rw [hexp] at hexp'
        cases hexp'
        rw [if_neg (by omega), if_neg (by omega), if_neg (by omega)]

/-- Claim C4: for an envelope from the configured origin with a
non-empty type other than `HANDSHAKE_RESPONSE`, the message reaches the
dispatch exactly when `metadata.timestamp` and `metadata.expiresAt` are
present, `now` is not past `expiresAt`, the timestamp is at most
60000 ms in the future and the age is at most 120000 ms; an envelope of
type `HANDSHAKE_RESPONSE` reaches the dispatch with none of these
checks. -/
theorem c4_validation_gate (s : Session) (now : Int) (m : Envelope)
    (hne : m.type ≠ "") :
    (m.type ≠ "HANDSHAKE_RESPONSE" →
      (messageAccepted s now s.senderOrigin m = true ↔
        ∃ md ts exp, m.metadata = some md ∧ md.timestamp = some ts ∧
          md.expiresAt = some exp ∧ now ≤ exp ∧ ts ≤ now + 60000 ∧
          now - ts ≤ 120000)) ∧
    (m.type = "HANDSHAKE_RESPONSE" →
      messageAccepted s now s.senderOrigin m = true) := by
  constructor
  · intro hhr
    rw [← isMessageValid_iff]
    unfold messageAccepted
    rw [if_neg (by simp), if_neg hne]
    cases hv : isMessageValid m now with
    | false => rw [if_pos ⟨hhr, rfl⟩]
    | true => rw [if_neg (fun hx => by cases hx.2)]
  · intro hhr
    unfold messageAccepted
    rw [if_neg (by simp), if_neg hne, if_neg (fun hx => hx.1 hhr)]

theorem c4_witness :
    (wTransferNoData.type ≠ "") ∧
    ((wTransferNoData.type ≠ "HANDSHAKE_RESPONSE" →
      (messageAccepted wInit 0 wInit.senderOrigin wTransferNoData = true ↔
        ∃ md ts exp, wTransferNoData.metadata = some md ∧
          md.timestamp = some ts ∧ md.expiresAt = some exp ∧
          (0 : Int) ≤ exp ∧ ts ≤ 0 + 60000 ∧ 0 - ts ≤ 120000)) ∧
    (wTransferNoData.type = "HANDSHAKE_RESPONSE" →
      messageAccepted wInit 0 wInit.senderOrigin wTransferNoData = true)) :=
  ⟨by decide, c4_validation_gate wInit 0 wTransferNoData (by decide)⟩

/-- Claim C5: a validated `TOKEN_TRANSFER` processed while Connected
(with a token store set) whose data carries both tokens leads to
exactly one store call with the tokens, the userId, the issuedAt and
`source = configuredSenderOrigin`; one `TOKEN_RECEIVED` acknowledgment
carrying the original `requestId` and a success flag, dispatched
through the messenger to the recorded peer window at the configured
origin; and exactly one observer call with the token bundle, the userId
and the issuedAt when an observer is registered — none (and no error)
otherwise. -/
theorem c5_token_relay (s : Session) (hr : Reachable s) (now : Int)
    (own : String) (op : Bool) (es : WindowRef) (m : Envelope)
    (d : TransferData) (t : Tokens)
    (hcomp : s.handshakeComplete = true) (hst : s.hasTokenStorage = true)
    (hm : m.type = "TOKEN_TRANSFER") (hd : m.data = some d)
    (ht : d.tokens = some t) (ha : t.accessToken ≠ "")
    (hb : t.refreshToken ≠ "") (hv : isMessageValid m now = true) :
    ∃ w, s.sourceWindow = some w ∧
      handleMessage s now own op s.senderOrigin es (some m) =
        { session := s
          statusUpdates :=
            [{ message := "Tokens received successfully!"
               kind := StatusKind.success }]
          storeCalls := [(t, d.userId, d.issuedAt, s.senderOrigin)]
          sent :=
            [{ target := w
               targetOrigin := s.senderOrigin
               message :=
                 { type := "TOKEN_RECEIVED"
                   requestId := m.requestId
                   data := OutData.ack true now
                   metadata := some { timestamp := now, sender := own } } }]
          callbackCalls :=
            if s.hasCallback then [(t, d.userId, d.issuedAt)] else [] } := by
  obtain ⟨hinv1, hinv2⟩ := reachable_sessionInv s hr
  obtain ⟨w, hw⟩ := Option.isSome_iff_exists.mp (hinv2 hcomp)
  refine ⟨w, hw, ?_⟩
  rw [handleMessage_some, if_neg (by simp)]
  have hacc : messageAccepted s now s.senderOrigin m = true := by
    unfold messageAccepted
    rw [if_neg (by simp), if_neg (by rw [hm]; decide),
        if_neg (fun hx => by rw [hv] at hx; cases hx.2)]
  rw [if_pos hacc]
  unfold dispatchMessage
  rw [if_neg (by rw [hm]; decide), if_pos hm,
      if_neg (by rw [hcomp]; decide), hd]
  obtain ⟨dtk, duid, diat⟩ := d
  cases ht
  dsimp only [Option.getD_some]
  rw [if_neg (fun hx => hx.elim ha hb)]
  unfold sendMessage secureWrap
  rw [hw, if_pos hst,
      if_neg (fun hx => by cases hx.1),
      if_neg (fun hx =>
        (by decide : ("TOKEN_RECEIVED" : String) ≠ "HANDSHAKE_REQUEST") hx.1)]
  dsimp only
  rw [Option.toList_some]

theorem c5_witness :
    ∃ w, wConnected.sourceWindow = some w ∧
      handleMessage wConnected 0 "http://localhost:3003" true
        wConnected.senderOrigin (WindowRef.win 7) (some wTransferFull) =
        { session := wConnected
          statusUpdates :=
            [{ message := "Tokens received successfully!"
               kind := StatusKind.success }]
          storeCalls :=
            [({ accessToken := "a", refreshToken := "b" }, some "u1",
              some "t0", wConnected.senderOrigin)]
          sent :=
            [{ target := w
               targetOrigin := wConnected.senderOrigin
               message :=
                 { type := "TOKEN_RECEIVED"
                   requestId := wTransferFull.requestId
                   data := OutData.ack true 0
                   metadata :=
                     some { timestamp := 0
                            sender := "http://localhost:3003" } } }]
          callbackCalls :=
            if wConnected.hasCallback then
              [({ accessToken := "a", refreshToken := "b" }, some "u1",
                some "t0")]
            else [] } :=
  c5_token_relay wConnected
    ⟨"http://localhost:3002", false, true, true,
      [Event.message 0 "http://localhost:3003" true "http://localhost:3002"
        (WindowRef.win 0) (some wResponse)], by decide⟩
    0 "http://localhost:3003" true (WindowRef.win 7) wTransferFull
    { tokens := some { accessToken := "a", refreshToken := "b" }
      userId := some "u1"
      issuedAt := some "t0" }
    { accessToken := "a", refreshToken := "b" }
    rfl rfl rfl rfl rfl (by decide) (by decide) (by decide)

/-- Every dispatch `_sendMessage` performs uses the configured sender
origin as the `postMessage` target origin. -/
lemma sendMessage_sent_targetOrigin (s : Session) (op : Bool) (now : Int)
    (own : String) (msg : OutMessage) (sm : SentMessage)
    (h : (sendMessage s op now own msg).1 = some sm) :
    sm.targetOrigin = s.senderOrigin := by
  unfold sendMessage at h
  by_cases h1 : s.sourceWindow = none ∧ op = false
  · rw [if_pos h1] at h
    cases h
  · rw [if_neg h1] at h
    by_cases h2 : msg.type = "HANDSHAKE_REQUEST" ∧ op = true
    · rw [if_pos h2] at h
      cases h
      rfl
    · rw [if_neg h2] at h
      cases hsw : s.sourceWindow with
      | none =>
        rw [hsw] at h
        cases h
      | some w =>
        rw [hsw] at h
        cases h
        rfl

/-- Every dispatch performed while handling an inbound message uses the
configured sender origin as the target origin. -/
lemma handleMessage_sent_targetOrigin (s : Session) (now : Int)
    (own : String) (op : Bool) (eo : String) (es : WindowRef)
    (ed : Option Envelope) (sm : SentMessage)
    (h : sm ∈ (handleMessage s now own op eo es ed).sent) :
    sm.targetOrigin = s.senderOrigin := by
  cases ed with
  | none =>
    revert h
    unfold handleMessage
    split
    · intro h
      simp [HandleResult.noop] at h
    · intro h
      simp [HandleResult.noop] at h
  | some m =>
    rw [handleMessage_some] at h
    by_cases h1 : eo ≠ s.senderOrigin
    · rw [if_pos h1] at h
      simp [HandleResult.noop] at h
    · rw [if_neg h1] at h
      by_cases h2 : messageAccepted s now eo m = true
      · rw [if_pos h2] at h
        unfold dispatchMessage at h
        by_cases h3 : m.type = "HANDSHAKE_RESPONSE"
        · rw [if_pos h3] at h
          simp at h
        · rw [if_neg h3] at h
          by_cases h4 : m.type = "TOKEN_TRANSFER"
          · rw [if_pos h4] at h
            by_cases h5 : s.handshakeComplete = false
            · rw [if_pos h5] at h
              simp [HandleResult.noop] at h
            · rw [if_neg h5] at h
              split at h
              · simp [HandleResult.noop] at h
              · split at h
                · simp [HandleResult.noop] at h
                · simp only [Option.mem_toList, Option.mem_def] at h
                  exact sendMessage_sent_targetOrigin _ _ _ _ _ _ h
          · rw [if_neg h4] at h
            simp [HandleResult.noop] at h
      · rw [if_neg h2] at h
        simp [HandleResult.noop] at h

/-- Claim C6: every outbound dispatch the program performs — the
handshake request sent by `initiateHandshake`, anything routed through
`_sendMessage`, and every dispatch arising while handling an inbound
message — passes the configured sender origin as the exact target
origin; given that the configured origin is not the wildcard, no
dispatch ever uses a wildcard target origin. -/
theorem c6_exact_target_origin (s : Session) (op : Bool) (now : Int)
    (own rid : String) (msg : OutMessage) (eo : String) (es : WindowRef)
    (ed : Option Envelope) (hnw : s.senderOrigin ≠ "*") :
    (∀ sm ∈ (initiateHandshake s op now own rid).sent,
      sm.targetOrigin = s.senderOrigin ∧ sm.targetOrigin ≠ "*") ∧
    (∀ sm, (sendMessage s op now own msg).1 = some sm →
      sm.targetOrigin = s.senderOrigin ∧ sm.targetOrigin ≠ "*") ∧
    (∀ sm ∈ (handleMessage s now own op eo es ed).sent,
      sm.targetOrigin = s.senderOrigin ∧ sm.targetOrigin ≠ "*") := by
  refine ⟨?_, ?_, ?_⟩
  · intro sm hmem
    revert hmem
    unfold initiateHandshake
    split
    · intro hmem
      simp at hmem
    · intro hmem
      simp only [List.mem_singleton] at hmem
      subst hmem
      exact ⟨rfl, hnw⟩
  · intro sm hsm
    have := sendMessage_sent_targetOrigin s op now own msg sm hsm
    exact ⟨this, this ▸ hnw⟩
  · intro sm hmem
    have := handleMessage_sent_targetOrigin s now own op eo es ed sm hmem
    exact ⟨this, this ▸ hnw⟩

theorem c6_witness :
    (wConnected.senderOrigin ≠ "*") ∧
    ((∀ sm ∈ (initiateHandshake wConnected true 0 "http://localhost:3003"
        "rid3").sent,
      sm.targetOrigin = wConnected.senderOrigin ∧ sm.targetOrigin ≠ "*") ∧
    (∀ sm, (sendMessage wConnected true 0 "http://localhost:3003"
        { type := "TOKEN_RECEIVED"
          requestId := some "r"
          data := OutData.ack true 0
          metadata := none }).1 = some sm →
      sm.targetOrigin = wConnected.senderOrigin ∧ sm.targetOrigin ≠ "*") ∧
    (∀ sm ∈ (handleMessage wConnected 0 "http://localhost:3003" true
        "http://localhost:3002" (WindowRef.win 2)
        (some wTransferFull)).sent,
      sm.targetOrigin = wConnected.senderOrigin ∧ sm.targetOrigin ≠ "*")) :=
  ⟨by decide,
    c6_exact_target_origin wConnected true 0 "http://localhost:3003" "rid3"
      { type := "TOKEN_RECEIVED"
        requestId := some "r"
        data := OutData.ack true 0
        metadata := none }
      "http://localhost:3002" (WindowRef.win 2) (some wTransferFull)
      (by decide)⟩

/-- Claim C7 counterexample: after `initiate()` on a fresh instance (no
session field changes), letting the 30-second timeout fire with the
handshake still incomplete reports the timeout condition but performs
no state transition at all — the session is exactly the pre-timeout
state and its `connectionStatus` is still `"disconnected"`, not any
error state. -/
theorem c7_counterexample :
    (fireHandshakeTimeout wAfterInitiate).1 = wAfterInitiate ∧
    (fireHandshakeTimeout wAfterInitiate).1.connectionStatus =
      "disconnected" ∧
    (fireHandshakeTimeout wAfterInitiate).1.connectionStatus ≠ "error" ∧
    (fireHandshakeTimeout wAfterInitiate).2 =
      [{ message := "Handshake timed out. Please try again."
         kind := StatusKind.error }] := by decide

/-- Claim C7 (amended): when the handshake timeout fires, the session
state is left completely unchanged — there is no transition to an Error
state (or any state). If the handshake is still incomplete, the
recoverable "Handshake timed out. Please try again." condition is
reported via the status update (kind error); if the handshake has
already completed, the fired timer has no effect at all. -/
theorem c7_timeout_report_only (s : Session) :
    (fireHandshakeTimeout s).1 = s ∧
    (s.handshakeComplete = false →
      (fireHandshakeTimeout s).2 =
        [{ message := "Handshake timed out. Please try again."
           kind := StatusKind.error }]) ∧
    (s.handshakeComplete = true → (fireHandshakeTimeout s).2 = []) := by
  unfold fireHandshakeTimeout
  cases hc : s.handshakeComplete <;> simp

theorem c7_witness :
    (fireHandshakeTimeout wInit).1 = wInit ∧
    (wInit.handshakeComplete = false →
      (fireHandshakeTimeout wInit).2 =
        [{ message := "Handshake timed out. Please try again."
           kind := StatusKind.error }]) ∧
    (wInit.handshakeComplete = true → (fireHandshakeTimeout wInit).2 = []) :=
  c7_timeout_report_only wInit

/-- Claim C8 counterexample: the single envelope dispatched by
`initiate()` on a fresh instance carries no `metadata` object at all —
in particular no `metadata.timestamp` and no `metadata.sender`. -/
theorem c8_counterexample :
    ((initiateHandshake wInit true 0 "http://localhost:3003" "rid2").sent.map
      (fun sm => sm.message.metadata)) = [none] := by decide

/-- Claim C8 (amended): with the opener present, `initiate()` posts the
`HANDSHAKE_REQUEST` directly through the opener reference (not through
`_sendMessage`), targeted at the configured sender origin; the envelope
carries `data` with the current timestamp and the receiver's own
origin, and no `metadata` object is attached. The call succeeds, arms
the 30-second timeout and changes no session field. -/
theorem c8_handshake_request_direct (s : Session) (now : Int)
    (own rid : String) :
    (initiateHandshake s true now own rid).sent =
      [{ target := WindowRef.opener
         targetOrigin := s.senderOrigin
         message :=
           { type := "HANDSHAKE_REQUEST"
             requestId := some rid
             data := OutData.handshake now own
             metadata := none } }] ∧
    (initiateHandshake s true now own rid).ok = true ∧
    (initiateHandshake s true now own rid).timeoutArmed = true ∧
    (initiateHandshake s true now own rid).session = s := by
  unfold initiateHandshake
  rw [if_neg (by decide)]
  exact ⟨rfl, rfl, rfl, rfl⟩

/-- Claim C9: a validated `TOKEN_TRANSFER` processed while Connected
whose payload lacks the tokens, or lacks `accessToken` or
`refreshToken`, reports the invalid-token condition and does nothing
else: no store call, no dispatch, no observer call, session unchanged
(still Connected). -/
theorem c9_invalid_payload_rejected (s : Session) (now : Int)
    (own : String) (op : Bool) (es : WindowRef) (m : Envelope)
    (hcomp : s.handshakeComplete = true) (hm : m.type = "TOKEN_TRANSFER")
    (hv : isMessageValid m now = true)
    (hbad : invalidTokenPayload m = true) :
    handleMessage s now own op s.senderOrigin es (some m) =
      { session := s
        statusUpdates :=
          [{ message := "Error: Received invalid token data"
             kind := StatusKind.error }]
        storeCalls := []
        sent := []
        callbackCalls := [] } := by
  rw [handleMessage_some, if_neg (by simp)]
  have hacc : messageAccepted s now s.senderOrigin m = true := by
    unfold messageAccepted
    rw [if_neg (by simp), if_neg (by rw [hm]; decide),
        if_neg (fun hx => by rw [hv] at hx; cases hx.2)]
  rw [if_pos hacc]
  unfold dispatchMessage
  rw [if_neg (by rw [hm]; decide), if_pos hm,
      if_neg (by rw [hcomp]; decide)]
  unfold invalidTokenPayload at hbad
  rcases hgd : m.data.getD { tokens := none, userId := none, issuedAt := none }
    with ⟨dtk, duid, diat⟩
  cases dtk with
  | none => rfl
  | some t =>
    rw [hgd] at hbad
    dsimp only at hbad ⊢
    by_cases hx : t.accessToken = "" ∨ t.refreshToken = ""
    · rw [if_pos hx]
      rfl
    · rw [if_neg hx] at hbad
      cases hbad

theorem c9_witness :
    (wConnected.handshakeComplete = true) ∧
    (wTransferNoData.type = "TOKEN_TRANSFER") ∧
    (isMessageValid wTransferNoData 0 = true) ∧
    (invalidTokenPayload wTransferNoData = true) ∧
    handleMessage wConnected 0 "http://localhost:3003" true
      wConnected.senderOrigin (WindowRef.win 3) (some wTransferNoData) =
      { session := wConnected
        statusUpdates :=
          [{ message := "Error: Received invalid token data"
             kind := StatusKind.error }]
        storeCalls := []
        sent := []
        callbackCalls := [] } :=
  ⟨rfl, rfl, by decide, by decide,
    c9_invalid_payload_rejected wConnected 0 "http://localhost:3003" true
      (WindowRef.win 3) wTransferNoData rfl rfl (by decide) (by decide)⟩

/-- Claim C10: acceptance and handling of a `HANDSHAKE_RESPONSE` never
reads its `requestId` — two inbound responses differing only in the
`requestId` field (present or absent) produce identical results, hence
identical session states; the correlation id generated by `initiate()`
is never compared against the response. -/
theorem c10_requestId_independent (s : Session) (now : Int) (own : String)
    (op : Bool) (eo : String) (es : WindowRef) (m : Envelope)
    (r1 r2 : Option String) (hm : m.type = "HANDSHAKE_RESPONSE") :
    handleMessage s now own op eo es (some { m with requestId := r1 }) =
    handleMessage s now own op eo es (some { m with requestId := r2 }) := by
  rw [handleMessage_some, handleMessage_some]
  by_cases h1 : eo ≠ s.senderOrigin
  · rw [if_pos h1, if_pos h1]
  · rw [if_neg h1, if_neg h1]
    by_cases h2 : messageAccepted s now eo { m with requestId := r1 } = true
    · have h2b : messageAccepted s now eo { m with requestId := r2 } = true :=
        h2
      rw [if_pos h2, if_pos h2b]
      unfold dispatchMessage
      rw [if_pos (show ({ m with requestId := r1 } : Envelope).type =
            "HANDSHAKE_RESPONSE" from hm),
          if_pos (show ({ m with requestId := r2 } : Envelope).type =
            "HANDSHAKE_RESPONSE" from hm)]
    · have h2b :
          ¬ messageAccepted s now eo { m with requestId := r2 } = true := h2
      rw [if_neg h2, if_neg h2b]

theorem c10_witness :
    (wResponse.type = "HANDSHAKE_RESPONSE") ∧
    handleMessage wInit 0 "http://localhost:3003" true "http://localhost:3002"
      (WindowRef.win 4) (some { wResponse with requestId := none }) =
    handleMessage wInit 0 "http://localhost:3003" true "http://localhost:3002"
      (WindowRef.win 4) (some { wResponse with requestId := some "forged" }) :=
  ⟨rfl, c10_requestId_independent wInit 0 "http://localhost:3003" true
    "http://localhost:3002" (WindowRef.win 4) wResponse none (some "forged")
    rfl⟩
